import Mathlib

/-!
Shallow embedding of the PyScrape browser shell:
  - src/backend/app/utils/logger.py   (ErrorHandler utilities)
  - src/backend/app/browser/window.py (BrowserWindow navigation and init)

Python exceptions are modelled as values of `Exc`; a fallible Python call
returns `Except Exc α`.  Observable side effects (log records, view load
calls, history calls, status-bar messages, dialogs) are collected into a
`List Effect`.  External toolkit calls (the embedded web view, widget
constructors) are modelled as environment records whose fields say whether
each underlying call succeeds or raises, so the control flow of the
Python code around them can be translated faithfully.
-/

/-- Python exception values, classified by kind and carrying their
    string representation. -/
inductive Exc where
  | browserError (msg : String)
  | navigationError (msg : String)
  | typeError (msg : String)
  | other (kind : String) (msg : String)
deriving DecidableEq

/-- Python str(e) of an exception. -/
def excStr : Exc → String
  | .browserError m => m
  | .navigationError m => m
  | .typeError m => m
  | .other _ m => m

/-- Logging levels of the logging module. -/
inductive LogLevel where
  | debug
  | info
  | warning
  | error
  | critical
deriving DecidableEq

/-- One emitted log record: level, the message passed to the logger, and
    the optional exception attached to it (BrowserLogger.error appends
    str(exception) and a traceback to the message; we keep the raw pieces). -/
structure LogRecord where
  level : LogLevel
  message : String
  exc : Option Exc
deriving DecidableEq

/-- Observable side effects of the window shell and the logger. -/
inductive Effect where
  | log (r : LogRecord)
  | loadUrl (u : String)
  | backCall
  | forwardCall
  | reloadCall
  | showStatus (msg : String) (ms : Nat)
  | showDialog (title : String) (msg : String)
deriving DecidableEq

/-- logger.info emission. -/
def logInfo (m : String) : Effect :=
  .log ⟨.info, m, none⟩

/-- logger.debug emission. -/
def logDebug (m : String) : Effect :=
  .log ⟨.debug, m, none⟩

/-- logger.error emission (optionally with exception detail). -/
def logError (m : String) (e : Option Exc) : Effect :=
  .log ⟨.error, m, e⟩

/-- Is this effect an Error-level log record? -/
def isErrorLog : Effect → Bool
  | .log r => r.level == .error
  | _ => false

/-- Number of Error-level log records in an effect trace. -/
def errorLogCount (l : List Effect) : Nat :=
  l.countP isErrorLog

/-- URLs handed to the embedded view's load API, in order. -/
def loadCalls (l : List Effect) : List String :=
  l.filterMap fun e =>
    match e with
    | .loadUrl u => some u
    | _ => none

/-- Status-bar messages shown, in order. -/
def statusCalls (l : List Effect) : List (String × Nat) :=
  l.filterMap fun e =>
    match e with
    | .showStatus m t => some (m, t)
    | _ => none

/-- Modal dialogs shown, in order. -/
def dialogCalls (l : List Effect) : List (String × String) :=
  l.filterMap fun e =>
    match e with
    | .showDialog t m => some (t, m)
    | _ => none

/-- Number of back-navigation calls issued to the embedded view. -/
def backCallCount (l : List Effect) : Nat :=
  l.countP fun e => e == .backCall

/-- Number of forward-navigation calls issued to the embedded view. -/
def forwardCallCount (l : List Effect) : Nat :=
  l.countP fun e => e == .forwardCall

/-- A Python callable: its `__name__` when it has one, and its body, which
    may raise and may emit effects. -/
structure PyFunc (α : Type) where
  name : Option String
  run : Unit → Except Exc α × List Effect

/-- ErrorHandler.handle_exception (logger.py lines 99-108): decorator that
    runs the function; on exception it logs one Error record naming the
    function and re-raises the same exception. -/
def ErrorHandler.handle_exception {α : Type} (name : String)
    (f : Unit → Except Exc α × List Effect) : Except Exc α × List Effect :=
  match f () with
  | (.ok a, effs) => (.ok a, effs)
  | (.error e, effs) => (.error e, effs ++ [logError ("Error in " ++ name) (some e)])

/-- ErrorHandler.safe_execute (logger.py lines 110-118): runs the function;
    on exception, optionally logs one Error record (using the function's
    `__name__` when present, else "anonymous function") and returns
    `default_return` instead of propagating. -/
def ErrorHandler.safe_execute {α : Type} (func : PyFunc α)
    (default_return : α) (log_errors : Bool) : α × List Effect :=
  match func.run () with
  | (.ok a, effs) => (a, effs)
  | (.error e, effs) =>
      (default_return,
        if log_errors then
          effs ++ [logError ("Safe execution failed for " ++
            (match func.name with
             | some n => n
             | none => "anonymous function")) (some e)]
        else effs)

/-- Python runtime types appearing as `data_type` arguments. -/
inductive PyType where
  | int
  | str
  | bool
  | float
  | list
  | dict
  | noneType
deriving DecidableEq

/-- The type's `__name__`. -/
def PyType.name : PyType → String
  | .int => "int"
  | .str => "str"
  | .bool => "bool"
  | .float => "float"
  | .list => "list"
  | .dict => "dict"
  | .noneType => "NoneType"

/-- Python values, abstracted to what isinstance and type() observe. -/
inductive PyVal where
  | vInt (n : Int)
  | vStr (s : String)
  | vBool (b : Bool)
  | vFloat
  | vList
  | vDict
  | vNone
deriving DecidableEq

/-- type(data) of a value. -/
def PyVal.typeOf : PyVal → PyType
  | .vInt _ => .int
  | .vStr _ => .str
  | .vBool _ => .bool
  | .vFloat => .float
  | .vList => .list
  | .vDict => .dict
  | .vNone => .noneType

/-- Python isinstance(data, data_type); bool is a subclass of int. -/
def isinstance (v : PyVal) (t : PyType) : Bool :=
  v.typeOf == t || (v.typeOf == .bool && t == .int)

/-- ErrorHandler.validate_input (logger.py lines 120-127): returns True on a
    type match; otherwise logs the mismatch message at Error level and
    raises TypeError with that same message. -/
def ErrorHandler.validate_input (data : PyVal) (data_type : PyType)
    (field_name : String) : Except Exc Bool × List Effect :=
  if isinstance data data_type then (.ok true, [])
  else
    let error_msg := "Invalid " ++ field_name ++ ": expected " ++
      data_type.name ++ ", got " ++ data.typeOf.name
    (.error (.typeError error_msg), [logError error_msg none])

/-- Python whitespace characters removed by str.strip(). -/
def pyIsSpace (c : Char) : Bool :=
  c == ' ' || c == '\t' || c == '\n' || c == '\r' || c == '\x0b' || c == '\x0c'

/-- Drop leading whitespace from a character list. -/
def dropLeadingSpaces : List Char → List Char
  | [] => []
  | c :: cs => if pyIsSpace c then dropLeadingSpaces cs else c :: cs

/-- Python str.strip(): remove leading and trailing whitespace. -/
def pyStrip (s : String) : String :=
  ⟨(dropLeadingSpaces (dropLeadingSpaces s.data).reverse).reverse⟩

/-- Is `p` a prefix of `s`, on character lists? -/
def isPrefixList : List Char → List Char → Bool
  | [], _ => true
  | _ :: _, [] => false
  | p :: ps, c :: cs => p == c && isPrefixList ps cs

/-- Python s.startswith(p). -/
def pyStartsWith (s p : String) : Bool :=
  isPrefixList p.data s.data

/-- Python `c in s` for a single character. -/
def pyContains (s : String) (c : Char) : Bool :=
  s.data.contains c

/-- The URL normalization of _navigate_to_url (window.py lines 242-248):
    keep a string already carrying an http:// or https:// scheme; else
    prepend https:// when it contains a dot; else wrap it as a Google
    search query, with the raw text interpolated into the f-string. -/
def normalizeUrl (url : String) : String :=
  if !(pyStartsWith url "http://" || pyStartsWith url "https://") then
    if pyContains url '.' then "https://" ++ url
    else "https://www.google.com/search?q=" ++ url
  else url

/-- Outcomes of the external view/status calls made by _navigate_to_url:
    whether web_view.setUrl and status_bar.showMessage raise. -/
structure NavOps where
  loadResult : String → Except Exc Unit
  statusResult : Except Exc Unit

/-- A NavOps environment in which no external call raises. -/
def okNav : NavOps :=
  ⟨fun _ => .ok (), .ok ()⟩

/-- Body of the inner try of _navigate_to_url (window.py lines 237-252):
    strip the address-bar text, return when empty, otherwise normalize,
    log, hand the URL to the view's load API and show a status message. -/
def navigateBody (text : String) (v : NavOps) : Except Exc Unit × List Effect :=
  let url := pyStrip text
  if url = "" then (.ok (), [])
  else
    let url2 := normalizeUrl url
    let pre := [logInfo ("Navigating to: " ++ url2), Effect.loadUrl url2]
    match v.loadResult url2 with
    | .error e => (.error e, pre)
    | .ok _ =>
      match v.statusResult with
      | .error e => (.error e, pre)
      | .ok _ => (.ok (), pre ++ [Effect.showStatus ("Loading " ++ url2 ++ "...") 5000])

/-- _navigate_to_url (window.py lines 234-256): the body above inside a
    try/except that logs and shows a Navigation Error dialog without
    re-raising, all wrapped by the handle_exception decorator. -/
def navigate_to_url (text : String) (v : NavOps) : Except Exc Unit × List Effect :=
  ErrorHandler.handle_exception "_navigate_to_url" fun _ =>
    match navigateBody text v with
    | (.ok a, effs) => (.ok a, effs)
    | (.error e, effs) =>
        (.ok (), effs ++ [logError "Error navigating to URL" (some e),
          Effect.showDialog "Navigation Error" ("Failed to navigate to URL: " ++ excStr e)])

/-- Outcomes of the external history/view calls made by the toolbar
    handlers: the capability queries and the navigation calls themselves. -/
structure ViewOps where
  canGoBack : Except Exc Bool
  canGoForward : Except Exc Bool
  backResult : Except Exc Unit
  forwardResult : Except Exc Unit
  reloadResult : Except Exc Unit
  homeLoadResult : Except Exc Unit

/-- Body of _go_back (window.py lines 258-263): back() only when
    history().canGoBack() holds. -/
def goBackBody (v : ViewOps) : Except Exc Unit × List Effect :=
  match v.canGoBack with
  | .error e => (.error e, [])
  | .ok false => (.ok (), [])
  | .ok true =>
    match v.backResult with
    | .error e => (.error e, [Effect.backCall])
    | .ok _ => (.ok (), [Effect.backCall, logDebug "Navigated back"])

/-- _go_back with its handle_exception decorator. -/
def go_back (v : ViewOps) : Except Exc Unit × List Effect :=
  ErrorHandler.handle_exception "_go_back" fun _ => goBackBody v

/-- Body of _go_forward (window.py lines 265-270). -/
def goForwardBody (v : ViewOps) : Except Exc Unit × List Effect :=
  match v.canGoForward with
  | .error e => (.error e, [])
  | .ok false => (.ok (), [])
  | .ok true =>
    match v.forwardResult with
    | .error e => (.error e, [Effect.forwardCall])
    | .ok _ => (.ok (), [Effect.forwardCall, logDebug "Navigated forward"])

/-- _go_forward with its handle_exception decorator. -/
def go_forward (v : ViewOps) : Except Exc Unit × List Effect :=
  ErrorHandler.handle_exception "_go_forward" fun _ => goForwardBody v

/-- Body of _refresh_page (window.py lines 272-276): unconditional reload. -/
def refreshBody (v : ViewOps) : Except Exc Unit × List Effect :=
  match v.reloadResult with
  | .error e => (.error e, [Effect.reloadCall])
  | .ok _ => (.ok (), [Effect.reloadCall, logDebug "Page refreshed"])

/-- _refresh_page with its handle_exception decorator. -/
def refresh_page (v : ViewOps) : Except Exc Unit × List Effect :=
  ErrorHandler.handle_exception "_refresh_page" fun _ => refreshBody v

/-- Body of _go_home (window.py lines 278-283): load the fixed home URL. -/
def goHomeBody (v : ViewOps) : Except Exc Unit × List Effect :=
  match v.homeLoadResult with
  | .error e => (.error e, [Effect.loadUrl "https://www.google.com"])
  | .ok _ => (.ok (), [Effect.loadUrl "https://www.google.com", logDebug "Navigated to home page"])

/-- _go_home with its handle_exception decorator. -/
def go_home (v : ViewOps) : Except Exc Unit × List Effect :=
  ErrorHandler.handle_exception "_go_home" fun _ => goHomeBody v

/-- Outcomes of the underlying toolkit calls made during BrowserWindow
    construction: whether each widget constructor and the signal wiring
    raise.  (Window-property setters and the optional icon step of
    _init_ui are toolkit plumbing with no bearing on the claims and are
    left out of the environment.) -/
structure InitEnv where
  menuBarResult : Except Exc Unit
  toolbarResult : Except Exc Unit
  addressBarResult : Except Exc Unit
  webViewResult : Except Exc Unit
  statusBarResult : Except Exc Unit
  connectionsResult : Except Exc Unit

/-- _create_menu_bar (window.py lines 85-129): catches internally, logs,
    never re-raises. -/
def create_menu_bar (r : Except Exc Unit) : List Effect :=
  match r with
  | .ok _ => [logDebug "Menu bar created successfully"]
  | .error e => [logError "Error creating menu bar" (some e)]

/-- _create_toolbar (window.py lines 131-169): catches internally, logs,
    never re-raises. -/
def create_toolbar (r : Except Exc Unit) : List Effect :=
  match r with
  | .ok _ => [logDebug "Toolbar created successfully"]
  | .error e => [logError "Error creating toolbar" (some e)]

/-- _create_address_bar (window.py lines 171-193): catches internally,
    logs, never re-raises. -/
def create_address_bar (r : Except Exc Unit) : List Effect :=
  match r with
  | .ok _ => [logDebug "Address bar created successfully"]
  | .error e => [logError "Error creating address bar" (some e)]

/-- _create_status_bar (window.py lines 209-219): catches internally,
    logs, never re-raises. -/
def create_status_bar (r : Except Exc Unit) : List Effect :=
  match r with
  | .ok _ => [Effect.showStatus "Ready" 2000, logDebug "Status bar created successfully"]
  | .error e => [logError "Error creating status bar" (some e)]

/-- _create_web_view (window.py lines 195-207): on success loads the
    default page; on failure logs and re-raises as
    BrowserError("Failed to create web engine view"). -/
def create_web_view (r : Except Exc Unit) : Except Exc Unit × List Effect :=
  match r with
  | .ok _ => (.ok (), [Effect.loadUrl "https://www.google.com", logDebug "Web view created successfully"])
  | .error e => (.error (.browserError "Failed to create web engine view"),
      [logError "Error creating web view" (some e)])

/-- The AttributeError raised when main_layout.addWidget reads a widget
    attribute that was never assigned because its creation helper failed. -/
def attrError (attr : String) : Exc :=
  .other "AttributeError" ("BrowserWindow object has no attribute " ++ attr)

/-- _init_ui (window.py lines 37-73): runs the five creation helpers, then
    adds toolbar, address widget and web view to the layout; any exception
    escaping the try block (the web-view BrowserError, or an AttributeError
    from addWidget when a helper failed before assigning its attribute) is
    caught, logged, and re-raised as
    BrowserError("Failed to create UI components"). -/
def init_ui (env : InitEnv) : Except Exc Unit × List Effect :=
  let pre := create_menu_bar env.menuBarResult ++ create_toolbar env.toolbarResult ++
    create_address_bar env.addressBarResult
  match create_web_view env.webViewResult with
  | (.error e, wv) =>
      (.error (.browserError "Failed to create UI components"),
        pre ++ wv ++ [logError "Error creating UI components" (some e)])
  | (.ok _, wv) =>
      let post := create_status_bar env.statusBarResult
      match env.toolbarResult with
      | .error _ =>
          (.error (.browserError "Failed to create UI components"),
            pre ++ wv ++ post ++ [logError "Error creating UI components" (some (attrError "toolbar"))])
      | .ok _ =>
        match env.addressBarResult with
        | .error _ =>
            (.error (.browserError "Failed to create UI components"),
              pre ++ wv ++ post ++ [logError "Error creating UI components" (some (attrError "address_widget"))])
        | .ok _ =>
            (.ok (), pre ++ wv ++ post ++ [logDebug "UI components created successfully"])

/-- _setup_connections (window.py lines 221-232): catches internally,
    logs, never re-raises. -/
def setup_connections (r : Except Exc Unit) : List Effect :=
  match r with
  | .ok _ => [logDebug "Signal connections setup successfully"]
  | .error e => [logError "Error setting up connections" (some e)]

/-- BrowserWindow.__init__ (window.py lines 24-35): runs _init_ui and
    _setup_connections inside a try/except that catches every Exception,
    logs it, and shows a blocking Initialization Error dialog without
    re-raising.  The first component is the exception propagating out of
    the constructor, if any. -/
def browserWindowInit (env : InitEnv) : Option Exc × List Effect :=
  let start := [logInfo "Initializing browser window"]
  match init_ui env with
  | (.error e, effs) =>
      (none, start ++ effs ++
        [logError "Failed to initialize browser window" (some e),
         Effect.showDialog "Initialization Error"
           "Failed to initialize browser window. Please restart the application."])
  | (.ok _, effs) =>
      (none, start ++ effs ++ setup_connections env.connectionsResult ++
        [logInfo "Browser window initialized successfully"])

/-! Helper lemmas shared by the claim theorems. -/

/-- Effect counters distribute over trace concatenation. -/
theorem errorLogCount_append (a b : List Effect) :
    errorLogCount (a ++ b) = errorLogCount a + errorLogCount b := by
  simp [errorLogCount, List.countP_append]

/-- Load-call extraction distributes over trace concatenation. -/
theorem loadCalls_append (a b : List Effect) :
    loadCalls (a ++ b) = loadCalls a ++ loadCalls b := by
  simp [loadCalls]

/-- Dialog extraction distributes over trace concatenation. -/
theorem dialogCalls_append (a b : List Effect) :
    dialogCalls (a ++ b) = dialogCalls a ++ dialogCalls b := by
  simp [dialogCalls]

/-- A non-empty string prepended to a string never gives the string back. -/
theorem string_append_ne (p s : String) (hp : p.data ≠ []) : ¬ (p ++ s = s) := by
  intro hcontra
  apply hp
  have hd : (p ++ s).data = p.data ++ s.data := by
    cases p
    cases s
    rfl
  have h1 := congrArg String.data hcontra
  rw [hd] at h1
  have h2 := congrArg List.length h1
  rw [List.length_append] at h2
  have h3 : p.data.length = 0 := by omega
  exact List.eq_nil_of_length_eq_zero h3

/-- On a non-blank input, _navigate_to_url never raises and hands exactly
    the normalized URL to the view's load API, whatever the external
    load/status calls do. -/
theorem navigate_effects (s : String) (v : NavOps) (h : ¬ pyStrip s = "") :
    (navigate_to_url s v).1 = .ok () ∧
    loadCalls (navigate_to_url s v).2 = [normalizeUrl (pyStrip s)] := by
  cases hl : v.loadResult (normalizeUrl (pyStrip s)) with
  | error e =>
      simp [navigate_to_url, ErrorHandler.handle_exception, navigateBody, h, hl, loadCalls,
        logInfo, logError, List.filterMap_cons]
  | ok u =>
      cases hs : v.statusResult with
      | error e =>
          simp [navigate_to_url, ErrorHandler.handle_exception, navigateBody, h, hl, hs, loadCalls,
            logInfo, logError, List.filterMap_cons]
      | ok u2 =>
          simp [navigate_to_url, ErrorHandler.handle_exception, navigateBody, h, hl, hs, loadCalls,
            logInfo, List.filterMap_cons]

/-- _navigate_to_url never lets an exception escape: its inner try/except
    catches everything the body can raise. -/
theorem navigate_no_raise (s : String) (v : NavOps) :
    (navigate_to_url s v).1 = .ok () := by
  by_cases h : pyStrip s = ""
  · simp [navigate_to_url, ErrorHandler.handle_exception, navigateBody, h]
  · exact (navigate_effects s v h).1

/-- Claim C4: the handle_exception decorator re-raises the wrapped
    operation's exception unchanged and adds exactly one Error-level log
    record, whose message names the operation and which carries the
    exception. -/
theorem handle_exception_reraises_and_logs {α : Type} (name : String)
    (f : Unit → Except Exc α × List Effect) (e : Exc) (effs : List Effect)
    (h : f () = (.error e, effs)) :
    ErrorHandler.handle_exception name f =
      (.error e, effs ++ [logError ("Error in " ++ name) (some e)]) ∧
    errorLogCount (ErrorHandler.handle_exception name f).2 = errorLogCount effs + 1 := by
  constructor
  · simp [ErrorHandler.handle_exception, h]
  · simp [ErrorHandler.handle_exception, h, errorLogCount_append, errorLogCount,
      isErrorLog, logError]

/-- Witness for C4 at a concrete raising operation. -/
theorem handle_exception_reraises_and_logs_witness :
    ErrorHandler.handle_exception "boom_op"
        (fun _ => ((.error (.other "ValueError" "boom") : Except Exc Nat), [])) =
      (.error (.other "ValueError" "boom"),
        [] ++ [logError ("Error in " ++ "boom_op") (some (.other "ValueError" "boom"))]) ∧
    errorLogCount (ErrorHandler.handle_exception "boom_op"
        (fun _ => ((.error (.other "ValueError" "boom") : Except Exc Nat), []))).2 =
      errorLogCount [] + 1 :=
  handle_exception_reraises_and_logs "boom_op"
    (fun _ => ((.error (.other "ValueError" "boom") : Except Exc Nat), []))
    (.other "ValueError" "boom") [] rfl

/-- Claim C5: safe_execute returns the default and adds exactly one
    Error-level record when the operation raises, and returns the
    operation's result adding no record when it does not; its return type
    has no exception channel, so it never propagates. -/
theorem safe_execute_spec {α : Type} (func : PyFunc α) (D : α) :
    (∀ e effs, func.run () = (.error e, effs) →
      ErrorHandler.safe_execute func D true =
        (D, effs ++ [logError ("Safe execution failed for " ++
          (match func.name with
           | some n => n
           | none => "anonymous function")) (some e)]) ∧
      errorLogCount (ErrorHandler.safe_execute func D true).2 = errorLogCount effs + 1) ∧
    (∀ a effs, func.run () = (.ok a, effs) →
      ErrorHandler.safe_execute func D true = (a, effs)) := by
  constructor
  · intro e effs h
    constructor
    · simp [ErrorHandler.safe_execute, h]
    · simp [ErrorHandler.safe_execute, h, errorLogCount_append, errorLogCount,
        isErrorLog, logError]
  · intro a effs h
    simp [ErrorHandler.safe_execute, h]

/-- Witness for C5 at a concrete raising and a concrete succeeding
    operation. -/
theorem safe_execute_spec_witness :
    ErrorHandler.safe_execute
        (⟨some "risky", fun _ => (.error (.other "ValueError" "bad"), [])⟩ : PyFunc Nat) 7 true =
      (7, [logError "Safe execution failed for risky" (some (.other "ValueError" "bad"))]) ∧
    ErrorHandler.safe_execute (⟨some "fine", fun _ => (.ok 3, [])⟩ : PyFunc Nat) 7 true =
      (3, []) := by
  constructor
  · have h := ((safe_execute_spec
      (⟨some "risky", fun _ => (.error (.other "ValueError" "bad"), [])⟩ : PyFunc Nat) 7).1
      (.other "ValueError" "bad") [] rfl).1
    simpa using h
  · exact (safe_execute_spec (⟨some "fine", fun _ => (.ok 3, [])⟩ : PyFunc Nat) 7).2 3 [] rfl

/-- Claim C9: validate_input succeeds exactly when isinstance holds;
    otherwise it logs exactly one Error record and raises TypeError, both
    carrying the message
    "Invalid {field_name}: expected {expected}, got {actual}". -/
theorem validate_input_spec (data : PyVal) (t : PyType) (fname : String) :
    (isinstance data t = true →
      ErrorHandler.validate_input data t fname = (.ok true, [])) ∧
    (isinstance data t = false →
      ErrorHandler.validate_input data t fname =
        (.error (.typeError ("Invalid " ++ fname ++ ": expected " ++ t.name ++
          ", got " ++ data.typeOf.name)),
         [logError ("Invalid " ++ fname ++ ": expected " ++ t.name ++
          ", got " ++ data.typeOf.name) none]) ∧
      errorLogCount (ErrorHandler.validate_input data t fname).2 = 1) := by
  constructor
  · intro h
    simp [ErrorHandler.validate_input, h]
  · intro h
    constructor
    · simp [ErrorHandler.validate_input, h]
    · simp [ErrorHandler.validate_input, h, errorLogCount, isErrorLog, logError]

/-- Witness for C9 at a matching and a mismatching concrete input. -/
theorem validate_input_spec_witness :
    ErrorHandler.validate_input (.vInt 5) .int "count" = (.ok true, []) ∧
    ErrorHandler.validate_input (.vStr "abc") .int "count" =
      (.error (.typeError "Invalid count: expected int, got str"),
       [logError "Invalid count: expected int, got str" none]) := by
  constructor
  · exact (validate_input_spec (.vInt 5) .int "count").1 (by decide)
  · have h := ((validate_input_spec (.vStr "abc") .int "count").2 (by decide)).1
    simpa using h

/-- Claim C6: on a non-empty trimmed input, the normalization rules apply
    in order: an input already carrying an accepted scheme is handed to
    the view's load API unchanged; otherwise an input containing a dot
    gets exactly the default secure scheme prepended. -/
theorem navigate_normalization_order (s : String) (v : NavOps)
    (htrim : pyStrip s = s) (hne : s ≠ "") :
    (pyStartsWith s "http://" = true ∨ pyStartsWith s "https://" = true →
      loadCalls (navigate_to_url s v).2 = [s]) ∧
    (pyStartsWith s "http://" = false → pyStartsWith s "https://" = false →
      pyContains s '.' = true →
      loadCalls (navigate_to_url s v).2 = ["https://" ++ s]) := by
  have hload := (navigate_effects s v (by rw [htrim]; exact hne)).2
  rw [htrim] at hload
  constructor
  · rintro (h | h) <;> simp [hload, normalizeUrl, h]
  · intro h1 h2 h3
    simp [hload, normalizeUrl, h1, h2, h3]

/-- Witness for C6: a scheme-carrying input passes unchanged, a bare host
    gets the https scheme prepended. -/
theorem navigate_normalization_order_witness :
    loadCalls (navigate_to_url "https://foo.bar" okNav).2 = ["https://foo.bar"] ∧
    loadCalls (navigate_to_url "example.com" okNav).2 = ["https://" ++ "example.com"] := by
  constructor
  · exact (navigate_normalization_order "https://foo.bar" okNav (by decide) (by decide)).1
      (Or.inr (by decide))
  · exact (navigate_normalization_order "example.com" okNav (by decide) (by decide)).2
      (by decide) (by decide) (by decide)

/-- Claim C1 counterexample: for the input "openai chatgpt" the URL handed
    to the view's load API interpolates the raw text — it still contains
    a space character, so its query value is not URL-escaped and differs
    from the escaped form named by the claim. -/
theorem navigate_search_query_unescaped :
    loadCalls (navigate_to_url "openai chatgpt" okNav).2 =
      ["https://www.google.com/search?q=openai chatgpt"] ∧
    pyContains "https://www.google.com/search?q=openai chatgpt" ' ' = true ∧
    ("https://www.google.com/search?q=openai chatgpt" : String) ≠
      "https://www.google.com/search?q=openai%20chatgpt" := by
  refine ⟨by decide, by decide, by decide⟩

/-- Claim C1 as amended: for a non-empty trimmed input with no accepted
    scheme and no dot, the URL handed to the view's load API is the search
    endpoint with the input interpolated verbatim as the query value,
    with no URL escaping applied by the code. -/
theorem navigate_search_raw_query (s : String) (v : NavOps)
    (htrim : pyStrip s = s) (hne : s ≠ "")
    (h1 : pyStartsWith s "http://" = false) (h2 : pyStartsWith s "https://" = false)
    (h3 : pyContains s '.' = false) :
    loadCalls (navigate_to_url s v).2 = ["https://www.google.com/search?q=" ++ s] := by
  have hload := (navigate_effects s v (by rw [htrim]; exact hne)).2
  rw [htrim] at hload
  simp [hload, normalizeUrl, h1, h2, h3]

/-- Witness for the amended C1 at the claim's own example input. -/
theorem navigate_search_raw_query_witness :
    loadCalls (navigate_to_url "openai chatgpt" okNav).2 =
      ["https://www.google.com/search?q=" ++ "openai chatgpt"] :=
  navigate_search_raw_query "openai chatgpt" okNav (by decide) (by decide)
    (by decide) (by decide) (by decide)

/-- Stripping a list of whitespace characters leaves nothing. -/
theorem dropLeadingSpaces_all (l : List Char) (h : ∀ c ∈ l, pyIsSpace c = true) :
    dropLeadingSpaces l = [] := by
  induction l with
  | nil => rfl
  | cons c cs ih =>
      rw [dropLeadingSpaces, if_pos (by exact_mod_cast h c (by simp))]
      exact ih fun x hx => h x (by simp [hx])

/-- A string made only of whitespace strips to the empty string. -/
theorem pyStrip_all_space (s : String) (h : ∀ c ∈ s.data, pyIsSpace c = true) :
    pyStrip s = "" := by
  unfold pyStrip
  rw [dropLeadingSpaces_all s.data h]
  rfl

/-- Claim C8: navigating on an empty or whitespace-only input (every
    character is whitespace, which covers the empty string) is a complete
    no-op: the handler returns normally with an empty effect trace — no
    load call, no status message, no log, no dialog. -/
theorem navigate_blank_noop (s : String) (v : NavOps)
    (h : ∀ c ∈ s.data, pyIsSpace c = true) :
    navigate_to_url s v = (.ok (), []) := by
  have hs : pyStrip s = "" := pyStrip_all_space s h
  simp [navigate_to_url, ErrorHandler.handle_exception, navigateBody, hs]

/-- Witness for C8 at the empty string, the claim's three-space example,
    and a mixed tab/newline whitespace input. -/
theorem navigate_blank_noop_witness :
    navigate_to_url "" okNav = (.ok (), []) ∧
    navigate_to_url "   " okNav = (.ok (), []) ∧
    navigate_to_url "\t \n" okNav = (.ok (), []) :=
  ⟨navigate_blank_noop "" okNav (by decide),
   navigate_blank_noop "   " okNav (by decide),
   navigate_blank_noop "\t \n" okNav (by decide)⟩

/-- Claim C10: the accepted scheme set is exactly http:// and https://.
    An input carrying any other scheme is never passed through unchanged,
    and when it contains a dot (as ftp://example.com does) the code
    prepends https:// to it, yielding a malformed double-scheme URL. -/
theorem scheme_allowlist_exact (s : String) (v : NavOps)
    (htrim : pyStrip s = s) (hne : s ≠ "")
    (h1 : pyStartsWith s "http://" = false) (h2 : pyStartsWith s "https://" = false) :
    loadCalls (navigate_to_url s v).2 ≠ [s] ∧
    (pyContains s '.' = true →
      loadCalls (navigate_to_url s v).2 = ["https://" ++ s]) := by
  have hload := (navigate_effects s v (by rw [htrim]; exact hne)).2
  rw [htrim] at hload
  constructor
  · rw [hload]
    intro hcontra
    have hnorm : normalizeUrl s = s := by
      simpa using hcontra
    cases hc : pyContains s '.' with
    | true =>
        have hnorm2 : normalizeUrl s = "https://" ++ s := by
          simp [normalizeUrl, h1, h2, hc]
        exact string_append_ne "https://" s (by decide) (hnorm2.symm.trans hnorm)
    | false =>
        have hnorm2 : normalizeUrl s = "https://www.google.com/search?q=" ++ s := by
          simp [normalizeUrl, h1, h2, hc]
        exact string_append_ne "https://www.google.com/search?q=" s (by decide)
          (hnorm2.symm.trans hnorm)
  · intro hc
    simp [hload, normalizeUrl, h1, h2, hc]

/-- Witness for C10 at the claim's example ftp://example.com. -/
theorem scheme_allowlist_exact_witness :
    loadCalls (navigate_to_url "ftp://example.com" okNav).2 ≠ ["ftp://example.com"] ∧
    loadCalls (navigate_to_url "ftp://example.com" okNav).2 =
      ["https://" ++ "ftp://example.com"] := by
  have h := scheme_allowlist_exact "ftp://example.com" okNav (by decide) (by decide)
    (by decide) (by decide)
  exact ⟨h.1, h.2 (by decide)⟩

/-- Claim C7: go_back is a no-op when the view's canGoBack query returns
    false and issues exactly one back call when it returns true; the same
    holds for go_forward with canGoForward. -/
theorem go_back_forward_guarded (v : ViewOps) :
    (v.canGoBack = .ok false → go_back v = (.ok (), [])) ∧
    (v.canGoBack = .ok true → v.backResult = .ok () →
      backCallCount (go_back v).2 = 1 ∧ (go_back v).1 = .ok ()) ∧
    (v.canGoForward = .ok false → go_forward v = (.ok (), [])) ∧
    (v.canGoForward = .ok true → v.forwardResult = .ok () →
      forwardCallCount (go_forward v).2 = 1 ∧ (go_forward v).1 = .ok ()) := by
  refine ⟨?_, ?_, ?_, ?_⟩
  · intro h
    simp [go_back, ErrorHandler.handle_exception, goBackBody, h]
  · intro h hb
    constructor
    · simp [go_back, ErrorHandler.handle_exception, goBackBody, h, hb, backCallCount,
        logDebug, List.countP_cons, List.countP_nil]
    · simp [go_back, ErrorHandler.handle_exception, goBackBody, h, hb]
  · intro h
    simp [go_forward, ErrorHandler.handle_exception, goForwardBody, h]
  · intro h hf
    constructor
    · simp [go_forward, ErrorHandler.handle_exception, goForwardBody, h, hf, forwardCallCount,
        logDebug, List.countP_cons, List.countP_nil]
    · simp [go_forward, ErrorHandler.handle_exception, goForwardBody, h, hf]

/-- Witness for C7 at a history-empty view and a history-capable view. -/
theorem go_back_forward_guarded_witness :
    go_back ⟨.ok false, .ok false, .ok (), .ok (), .ok (), .ok ()⟩ = (.ok (), []) ∧
    backCallCount (go_back ⟨.ok true, .ok true, .ok (), .ok (), .ok (), .ok ()⟩).2 = 1 ∧
    go_forward ⟨.ok false, .ok false, .ok (), .ok (), .ok (), .ok ()⟩ = (.ok (), []) ∧
    forwardCallCount (go_forward ⟨.ok true, .ok true, .ok (), .ok (), .ok (), .ok ()⟩).2 = 1 := by
  refine ⟨?_, ?_, ?_, ?_⟩
  · exact (go_back_forward_guarded ⟨.ok false, .ok false, .ok (), .ok (), .ok (), .ok ()⟩).1 rfl
  · exact ((go_back_forward_guarded ⟨.ok true, .ok true, .ok (), .ok (), .ok (), .ok ()⟩).2.1 rfl rfl).1
  · exact (go_back_forward_guarded ⟨.ok false, .ok false, .ok (), .ok (), .ok (), .ok ()⟩).2.2.1 rfl
  · exact ((go_back_forward_guarded ⟨.ok true, .ok true, .ok (), .ok (), .ok (), .ok ()⟩).2.2.2 rfl rfl).1

/-- Claim C3 counterexample: when the view's back() call raises, the
    decorated _go_back handler logs and then re-raises — the exception
    propagates out of the handler, so the handlers do not all swallow
    exceptions locally. -/
theorem go_back_exception_propagates :
    (go_back ⟨.ok true, .ok true, .error (.other "RuntimeError" "boom"),
        .ok (), .ok (), .ok ()⟩).1 = .error (.other "RuntimeError" "boom") ∧
    errorLogCount (go_back ⟨.ok true, .ok true, .error (.other "RuntimeError" "boom"),
        .ok (), .ok (), .ok ()⟩).2 = 1 := by
  constructor <;> rfl

/-- Claim C3 as amended: when the underlying operation raises, back,
    forward, refresh and home log exactly one Error-level record via the
    handle_exception decorator and then re-raise, so the exception
    propagates out of those handlers; navigate instead catches the
    exception in its own inner except block, logs exactly one Error-level
    record there, shows a Navigation Error dialog, and never lets any
    exception propagate. -/
theorem handlers_log_and_reraise (v : ViewOps) (nv : NavOps) (e : Exc) (s : String) :
    (v.canGoBack = .ok true → v.backResult = .error e →
      (go_back v).1 = .error e ∧ errorLogCount (go_back v).2 = 1) ∧
    (v.canGoForward = .ok true → v.forwardResult = .error e →
      (go_forward v).1 = .error e ∧ errorLogCount (go_forward v).2 = 1) ∧
    (v.reloadResult = .error e →
      (refresh_page v).1 = .error e ∧ errorLogCount (refresh_page v).2 = 1) ∧
    (v.homeLoadResult = .error e →
      (go_home v).1 = .error e ∧ errorLogCount (go_home v).2 = 1) ∧
    (navigate_to_url s nv).1 = .ok () ∧
    (¬ pyStrip s = "" → nv.loadResult (normalizeUrl (pyStrip s)) = .error e →
      errorLogCount (navigate_to_url s nv).2 = 1 ∧
      dialogCalls (navigate_to_url s nv).2 =
        [("Navigation Error", "Failed to navigate to URL: " ++ excStr e)]) := by
  refine ⟨?_, ?_, ?_, ?_, navigate_no_raise s nv, ?_⟩
  · intro h hb
    constructor
    · simp [go_back, ErrorHandler.handle_exception, goBackBody, h, hb]
    · simp [go_back, ErrorHandler.handle_exception, goBackBody, h, hb, errorLogCount,
        isErrorLog, logError, List.countP_cons, List.countP_nil]
  · intro h hf
    constructor
    · simp [go_forward, ErrorHandler.handle_exception, goForwardBody, h, hf]
    · simp [go_forward, ErrorHandler.handle_exception, goForwardBody, h, hf, errorLogCount,
        isErrorLog, logError, List.countP_cons, List.countP_nil]
  · intro h
    constructor
    · simp [refresh_page, ErrorHandler.handle_exception, refreshBody, h]
    · simp [refresh_page, ErrorHandler.handle_exception, refreshBody, h, errorLogCount,
        isErrorLog, logError, List.countP_cons, List.countP_nil]
  · intro h
    constructor
    · simp [go_home, ErrorHandler.handle_exception, goHomeBody, h]
    · simp [go_home, ErrorHandler.handle_exception, goHomeBody, h, errorLogCount,
        isErrorLog, logError, List.countP_cons, List.countP_nil]
  · intro h hl
    constructor
    · simp [navigate_to_url, ErrorHandler.handle_exception, navigateBody, h, hl,
        errorLogCount, isErrorLog, logInfo, logError, List.countP_cons, List.countP_nil]
    · simp [navigate_to_url, ErrorHandler.handle_exception, navigateBody, h, hl,
        dialogCalls, logInfo, logError, List.filterMap_cons]

/-- Witness for the amended C3: a view whose history calls all raise and a
    navigation whose load raises. -/
theorem handlers_log_and_reraise_witness :
    (go_back ⟨.ok true, .ok true, .error (.other "OSError" "down"), .error (.other "OSError" "down"),
        .error (.other "OSError" "down"), .error (.other "OSError" "down")⟩).1 =
      .error (.other "OSError" "down") ∧
    (go_forward ⟨.ok true, .ok true, .error (.other "OSError" "down"), .error (.other "OSError" "down"),
        .error (.other "OSError" "down"), .error (.other "OSError" "down")⟩).1 =
      .error (.other "OSError" "down") ∧
    (refresh_page ⟨.ok true, .ok true, .error (.other "OSError" "down"), .error (.other "OSError" "down"),
        .error (.other "OSError" "down"), .error (.other "OSError" "down")⟩).1 =
      .error (.other "OSError" "down") ∧
    (go_home ⟨.ok true, .ok true, .error (.other "OSError" "down"), .error (.other "OSError" "down"),
        .error (.other "OSError" "down"), .error (.other "OSError" "down")⟩).1 =
      .error (.other "OSError" "down") ∧
    (navigate_to_url "example.com" ⟨fun _ => .error (.other "OSError" "down"), .ok ()⟩).1 = .ok () ∧
    errorLogCount (navigate_to_url "example.com"
      ⟨fun _ => .error (.other "OSError" "down"), .ok ()⟩).2 = 1 ∧
    dialogCalls (navigate_to_url "example.com"
      ⟨fun _ => .error (.other "OSError" "down"), .ok ()⟩).2 =
      [("Navigation Error", "Failed to navigate to URL: " ++ excStr (.other "OSError" "down"))] := by
  have h := handlers_log_and_reraise
    ⟨.ok true, .ok true, .error (.other "OSError" "down"), .error (.other "OSError" "down"),
      .error (.other "OSError" "down"), .error (.other "OSError" "down")⟩
    ⟨fun _ => .error (.other "OSError" "down"), .ok ()⟩
    (.other "OSError" "down") "example.com"
  have hnav := h.2.2.2.2.2 (by decide) rfl
  exact ⟨(h.1 rfl rfl).1, (h.2.1 rfl rfl).1, (h.2.2.1 rfl).1, (h.2.2.2.1 rfl).1,
    h.2.2.2.2.1, hnav.1, hnav.2⟩

/-- Claim C2 counterexample: with the web-view constructor raising and
    every other toolkit call succeeding, BrowserWindow construction
    propagates no exception at all — __init__ catches it and shows the
    blocking Initialization Error dialog instead. -/
theorem webview_failure_caught_in_constructor :
    (browserWindowInit ⟨.ok (), .ok (), .ok (), .error (.other "RuntimeError" "boom"),
        .ok (), .ok ()⟩).1 = none ∧
    dialogCalls (browserWindowInit ⟨.ok (), .ok (), .ok (), .error (.other "RuntimeError" "boom"),
        .ok (), .ok ()⟩).2 =
      [("Initialization Error", "Failed to initialize browser window. Please restart the application.")] := by
  constructor <;> rfl

/-- Claim C2 as amended: a web-view creation failure is re-raised out of
    _create_web_view (as a BrowserError) and out of _init_ui, but
    BrowserWindow.__init__ catches it, logs it, and surfaces it as the
    blocking Initialization Error dialog; no exception propagates out of
    the window constructor. -/
theorem webview_failure_dialog_no_propagation (env : InitEnv) (e : Exc)
    (h : env.webViewResult = .error e) :
    (create_web_view env.webViewResult).1 =
      .error (.browserError "Failed to create web engine view") ∧
    (init_ui env).1 = .error (.browserError "Failed to create UI components") ∧
    (browserWindowInit env).1 = none ∧
    dialogCalls (browserWindowInit env).2 =
      [("Initialization Error", "Failed to initialize browser window. Please restart the application.")] := by
  obtain ⟨m, t, a, w, st, c⟩ := env
  simp only at h
  subst h
  refine ⟨rfl, ?_, ?_, ?_⟩ <;>
    cases m <;> cases t <;> cases a <;> cases st <;> cases c <;>
    simp [init_ui, browserWindowInit, create_web_view, create_menu_bar, create_toolbar,
      create_address_bar, create_status_bar, setup_connections, dialogCalls, logInfo,
      logDebug, logError, List.filterMap_cons]

/-- Witness for the amended C2 at a concrete failing web-view call. -/
theorem webview_failure_dialog_no_propagation_witness :
    (init_ui ⟨.ok (), .ok (), .ok (), .error (.other "RuntimeError" "crash"),
        .ok (), .ok ()⟩).1 = .error (.browserError "Failed to create UI components") ∧
    (browserWindowInit ⟨.ok (), .ok (), .ok (), .error (.other "RuntimeError" "crash"),
        .ok (), .ok ()⟩).1 = none := by
  have h := webview_failure_dialog_no_propagation
    ⟨.ok (), .ok (), .ok (), .error (.other "RuntimeError" "crash"), .ok (), .ok ()⟩
    (.other "RuntimeError" "crash") rfl
  exact ⟨h.2.1, h.2.2.1⟩
